import Mathlib

/-!
Verification of the headlines GUI application (src/src/headlines.rs, the
current revision of the repository) against its natural-language
specification.  The data model and the state-manipulating parts of the
code are embedded shallowly: pure record types become structures, the
button-click handlers and the background-worker message loop become
explicit state-passing functions, channels are described by the kind of
constructor that created them, and the per-frame article preloading is a
function on an explicit pending queue.
-/

namespace HeadlinesApp

/-- Country of the news to fetch.  The newsapi crate's Country enum as the
program uses it: the match in render_top_panel (src/src/headlines.rs lines
171 to 174) is exhaustive over exactly US and FR. -/
inductive Country where
  | us
  | fr
deriving DecidableEq, Repr

/-- Msg, src/src/headlines.rs lines 21 to 24: the events the UI thread
sends to the background fetch worker.  APIKeySet carries the new key,
Refresh carries the country to fetch. -/
inductive Msg where
  | apiKeySet (key : String)
  | refresh (country : Country)
deriving DecidableEq, Repr

/-- The constructor tags of Msg, one per source-level variant. -/
inductive MsgTag where
  | apiKeySet
  | refresh
deriving DecidableEq, Fintype, Repr

/-- Which source-level variant a message is. -/
def Msg.tag : Msg → MsgTag
  | .apiKeySet _ => .apiKeySet
  | .refresh _ => .refresh

/-- HeadlinesConfig, src/src/headlines.rs lines 26 to 31: the persisted
user preferences. -/
structure HeadlinesConfig where
  dark_mode : Bool
  api_key : String
  country : Country
deriving DecidableEq, Repr

/-- Default for HeadlinesConfig, src/src/headlines.rs lines 33 to 41. -/
def HeadlinesConfig.default : HeadlinesConfig :=
  { dark_mode := true, api_key := "", country := Country.fr }

/-- NewsCardData, src/src/headlines.rs lines 43 to 47: the UI record for
one article. -/
structure NewsCardData where
  title : String
  desc : String
  url : String
deriving DecidableEq, Repr

/-- One article of a NewsAPIResponse, as the program reads it: title and
url accessors yield strings, description yields an optional string
(src/src/headlines.rs lines 386 to 393). -/
structure Article where
  title : String
  description : Option String
  url : String
deriving DecidableEq, Repr

/-- The Headlines application state, src/src/headlines.rs lines 49 to 55.
The news receiver is modelled as the queue of already-delivered,
not-yet-consumed cards; the sender handle app_tx keeps its option
structure (its payload carries no state). -/
structure Headlines where
  articles : List NewsCardData
  config : HeadlinesConfig
  api_key_initialized : Bool
  news_rx : Option (List NewsCardData)
  app_tx : Option Unit
deriving DecidableEq, Repr

/-- Headlines::new, src/src/headlines.rs lines 58 to 66. -/
def Headlines.new : Headlines :=
  { articles := []
  , config := HeadlinesConfig.default
  , api_key_initialized := false
  , news_rx := none
  , app_tx := none }

/-! ### Channels created in init (src/src/headlines.rs lines 233 to 241) -/

/-- The two kinds of std::sync::mpsc channel the program can create:
channel() is unbounded, sync_channel(n) is bounded with capacity n. -/
inductive ChannelKind where
  | unbounded
  | bounded (capacity : Nat)
deriving DecidableEq, Repr

/-- The worker-to-UI news channel: created by channel() at
src/src/headlines.rs line 234. -/
def news_channel_kind : ChannelKind := ChannelKind.unbounded

/-- The UI-to-worker message channel: created by sync_channel(1) at
src/src/headlines.rs line 240. -/
def app_channel_kind : ChannelKind := ChannelKind.bounded 1

/-! ### Fetching and card generation -/

/-- One invocation of fetch_news, i.e. one NewsAPI HTTP GET
(src/src/headlines.rs lines 367 to 374: fetch_news performs exactly one
NewsAPI::new(api_key).country(country).fetch() call). -/
structure FetchCall where
  api_key : String
  country : Country
deriving DecidableEq, Repr

/-- generate_news_card_data, src/src/headlines.rs lines 385 to 399, card
for one article: description mapped through to_string when present,
otherwise the placeholder. -/
def articleToCard (article : Article) : NewsCardData :=
  { title := article.title
  , desc := (article.description.map (fun s => s)).getD "..."
  , url := article.url }

/-- generate_news_card_data, src/src/headlines.rs lines 385 to 399: the
sequence of cards sent over the news channel, one per article of the
response, in order. -/
def generate_news_card_data (response : List Article) : List NewsCardData :=
  response.map articleToCard

/-- The body of the worker loop, src/src/headlines.rs lines 248 to 260:
the fetch_news calls issued for one received message.  An APIKeySet
message fetches with the received key and the configured country; a
Refresh message fetches with the captured api_key and the carried
country. -/
def workerHandle (api_key : String) (config_country : Country) (msg : Msg) :
    List FetchCall :=
  match msg with
  | Msg.apiKeySet key => [{ api_key := key, country := config_country }]
  | Msg.refresh country => [{ api_key := api_key, country := country }]

/-! ### Per-frame article preloading and update -/

/-- Receiver::try_recv on the modelled queue: returns the first pending
element if any, immediately, and never waits. -/
def try_recv {α : Type} : List α → Option α × List α
  | [] => (none, [])
  | x :: rest => (some x, rest)

/-- preload_articles, src/src/headlines.rs lines 213 to 222: one try_recv
per call; on Ok the single card is pushed, on Err nothing happens. -/
def preload_articles (s : Headlines) : Headlines :=
  match s.news_rx with
  | none => s
  | some queue =>
    match try_recv queue with
    | (some news_data, rest) =>
        { s with articles := s.articles ++ [news_data], news_rx := some rest }
    | (none, rest) => { s with news_rx := some rest }

/-- The state transition of App::update, src/src/headlines.rs lines 295
to 320, in a frame with no input events: when the API key is not yet
initialized only the config window is rendered (no state change without
input); otherwise preload_articles runs and the panels are rendered.  No
branch of update calls fetch_news. -/
def update (s : Headlines) : Headlines :=
  if s.api_key_initialized then preload_articles s else s

/-! ### Persistence -/

/-- A key-value local storage, as eframe::Storage is used here: one
serialized HeadlinesConfig per string key. -/
def Storage : Type := List (String × HeadlinesConfig)

/-- eframe::set_value as used by save: store v under key, replacing any
previous value. -/
def set_value (storage : Storage) (key : String) (v : HeadlinesConfig) :
    Storage :=
  (key, v) :: List.filter (fun kv => kv.1 ≠ key) storage

/-- Lookup in the modelled storage. -/
def get_value (storage : Storage) (key : String) : Option HeadlinesConfig :=
  (List.find? (fun kv => kv.1 = key) storage).map Prod.snd

/-- App::save, src/src/headlines.rs lines 322 to 324: the whole config
record is written under the key "headlines". -/
def save (s : Headlines) (storage : Storage) : Storage :=
  set_value storage "headlines" s.config

/-! ### Top panel controls and click handlers -/

/-- The widgets render_top_panel adds to the menu bar,
src/src/headlines.rs lines 123 to 192. -/
inductive Control where
  | logo
  | close_btn
  | refresh_btn
  | theme_btn
  | country_btn
  | settings_btn
deriving DecidableEq, Repr

/-- The controls of the top menu bar in the order render_top_panel adds
them (native build), src/src/headlines.rs lines 123 to 192. -/
def top_panel_controls : List Control :=
  [ Control.logo
  , Control.close_btn
  , Control.refresh_btn
  , Control.theme_btn
  , Control.country_btn
  , Control.settings_btn ]

/-- The country switch performed by the country button's click handler,
src/src/headlines.rs lines 170 to 175: US goes to FR, FR goes to US. -/
def toggle_country : Country → Country
  | Country.us => Country.fr
  | Country.fr => Country.us

/-- The refresh button's click handler, src/src/headlines.rs lines 146 to
151: when the sender exists, clear the articles and send
Refresh(config.country); the handler returns the new state and the
messages sent, in order. -/
def refresh_click (s : Headlines) : Headlines × List Msg :=
  match s.app_tx with
  | some _ => ({ s with articles := [] }, [Msg.refresh s.config.country])
  | none => (s, [])

/-- The country button's click handler, src/src/headlines.rs lines 169 to
181: switch config.country, then, when the sender exists, clear the
articles and send Refresh with the new country. -/
def country_click (s : Headlines) : Headlines × List Msg :=
  let country := toggle_country s.config.country
  let s1 : Headlines := { s with config := { s.config with country := country } }
  match s1.app_tx with
  | some _ => ({ s1 with articles := [] }, [Msg.refresh country])
  | none => (s1, [])

/-- The theme button's click handler, src/src/headlines.rs lines 163 to
165: flip dark_mode, send nothing. -/
def theme_click (s : Headlines) : Headlines :=
  { s with config := { s.config with dark_mode := !s.config.dark_mode } }

/-- The settings button's click handler, src/src/headlines.rs lines 185
to 187: flip api_key_initialized, send nothing. -/
def settings_click (s : Headlines) : Headlines :=
  { s with api_key_initialized := !s.api_key_initialized }

/-- A concrete application state with a live worker sender, used to
instantiate the click-handler theorem. -/
def sample_state : Headlines :=
  { articles := [{ title := "t", desc := "d", url := "u" }]
  , config := HeadlinesConfig.default
  , api_key_initialized := true
  , news_rx := some []
  , app_tx := some () }

/-- Helper: the country button's handler always stores the switched
country, whether or not the sender exists. -/
theorem country_click_country (s : Headlines) :
    (country_click s).1.config.country = toggle_country s.config.country := by
  obtain ⟨articles, config, k, rx, tx⟩ := s
  cases tx <;> rfl

/-! ### Claims -/

/-- C1: the save operation persists the user preferences to local
storage: for every application state, save writes the whole
HeadlinesConfig record under the storage key "headlines", so dark_mode,
api_key and country are all recorded. -/
theorem C1_save_persists_whole_config (s : Headlines) (storage : Storage) :
    get_value (save s storage) "headlines" = some s.config ∧
    (get_value (save s storage) "headlines").map HeadlinesConfig.dark_mode
      = some s.config.dark_mode ∧
    (get_value (save s storage) "headlines").map HeadlinesConfig.api_key
      = some s.config.api_key ∧
    (get_value (save s storage) "headlines").map HeadlinesConfig.country
      = some s.config.country := by
  have h : get_value (save s storage) "headlines" = some s.config := by
    simp [get_value, save, set_value, List.find?]
  exact ⟨h, by rw [h]; rfl, by rw [h]; rfl, by rw [h]; rfl⟩

/-- C2 counterexample: Msg does not have three event variants; it has
exactly two constructor tags (APIKeySet and Refresh), and the tag map is
onto them, so there is no separate Country variant. -/
theorem C2_counterexample_two_variants_not_three :
    Fintype.card MsgTag = 2 ∧ Fintype.card MsgTag ≠ 3 ∧
    Function.Surjective Msg.tag := by
  refine ⟨by decide, by decide, fun t => ?_⟩
  cases t
  · exact ⟨Msg.apiKeySet "", rfl⟩
  · exact ⟨Msg.refresh Country.us, rfl⟩

/-- C2 amended: the message type passed from the UI thread to the
background fetch worker has exactly two event variants: an API-key
message carrying the new key and a Refresh message carrying the country
to fetch; a country change is sent as a Refresh message, not as a third
variant. -/
theorem C2_msg_has_exactly_two_variants :
    Fintype.card MsgTag = 2 ∧ Function.Surjective Msg.tag ∧
    (∀ m : Msg, (∃ key, m = Msg.apiKeySet key) ∨
      (∃ c, m = Msg.refresh c)) := by
  refine ⟨by decide, fun t => ?_, fun m => ?_⟩
  · cases t
    · exact ⟨Msg.apiKeySet "", rfl⟩
    · exact ⟨Msg.refresh Country.us, rfl⟩
  · cases m with
    | apiKeySet key => exact Or.inl ⟨key, rfl⟩
    | refresh c => exact Or.inr ⟨c, rfl⟩

/-- C3 counterexample: the channel carrying fetch results (news cards)
from the worker back to the UI thread is created by channel(), so it is
unbounded, not bounded. -/
theorem C3_counterexample_news_channel_unbounded :
    news_channel_kind = ChannelKind.unbounded ∧
    ¬ ∃ capacity, news_channel_kind = ChannelKind.bounded capacity := by
  refine ⟨rfl, ?_⟩
  rintro ⟨capacity, h⟩
  simp [news_channel_kind] at h

/-- C3 amended: the results channel from the worker to the UI thread is
unbounded; the bounded channel of the program (capacity 1) is the message
channel from the UI thread to the worker. -/
theorem C3_channel_kinds :
    news_channel_kind = ChannelKind.unbounded ∧
    app_channel_kind = ChannelKind.bounded 1 :=
  ⟨rfl, rfl⟩

/-- C4: for every Refresh message the background worker receives, it
issues exactly one fetch_news call (one NewsAPI HTTP GET), with the
captured api_key and the carried country. -/
theorem C4_one_fetch_per_refresh (api_key : String) (config_country : Country)
    (country : Country) :
    workerHandle api_key config_country (Msg.refresh country)
      = [{ api_key := api_key, country := country }] ∧
    (workerHandle api_key config_country (Msg.refresh country)).length = 1 :=
  ⟨rfl, rfl⟩

/-- C5: the update transition never waits on the network: the articles
grow by at most one card per frame, a frame takes zero cards or exactly
one pending card, and on an empty pending queue update returns
immediately with the state unchanged (try_recv, not a blocking
receive). -/
theorem C5_update_at_most_one_card_nonblocking (s : Headlines) :
    (update s).articles.length ≤ s.articles.length + 1 ∧
    ((update s).articles = s.articles ∨
      ∃ card, (update s).articles = s.articles ++ [card]) ∧
    (s.news_rx = some [] → update s = s) := by
  obtain ⟨articles, config, k, rx, tx⟩ := s
  cases k <;> rcases rx with _ | (_ | ⟨card, queue⟩) <;>
    simp [update, preload_articles, try_recv]

/-- C6: the rendered top menu bar contains all four controls: the refresh
button, the theme toggle, the country toggle and the settings button. -/
theorem C6_top_panel_contains_four_controls :
    Control.refresh_btn ∈ top_panel_controls ∧
    Control.theme_btn ∈ top_panel_controls ∧
    Control.country_btn ∈ top_panel_controls ∧
    Control.settings_btn ∈ top_panel_controls := by
  decide

/-- C7: a news card is a record of exactly a title, a description and a
URL, and generate_news_card_data delivers one card per article of the
response: the card at each position is built from exactly the article at
that position. -/
theorem C7_one_card_per_article (response : List Article) :
    (generate_news_card_data response).length = response.length ∧
    (∀ i : Nat, (generate_news_card_data response)[i]?
      = (response[i]?).map articleToCard) ∧
    (∀ card : NewsCardData, card = ⟨card.title, card.desc, card.url⟩) := by
  refine ⟨List.length_map _ _, fun i => ?_, fun card => rfl⟩
  simp [generate_news_card_data]

/-- C8: for every fetched article, the card's description equals the
article's description when present and the placeholder "..." when
absent; the title and the URL are copied unchanged. -/
theorem C8_card_fields_from_article (article : Article) :
    (articleToCard article).title = article.title ∧
    (articleToCard article).url = article.url ∧
    (∀ d, article.description = some d → (articleToCard article).desc = d) ∧
    (article.description = none → (articleToCard article).desc = "...") := by
  obtain ⟨t, d, u⟩ := article
  cases d <;> simp [articleToCard]

/-- C9: when the worker sender exists, the refresh click empties the
article list and sends Refresh with the current country while leaving the
config and every other field unchanged, and the country click empties the
article list and sends Refresh with the switched country while changing
only config.country. -/
theorem C9_click_clears_articles_then_refresh (s : Headlines)
    (h : s.app_tx = some ()) :
    (refresh_click s).1.articles = [] ∧
    (refresh_click s).2 = [Msg.refresh s.config.country] ∧
    (refresh_click s).1.config = s.config ∧
    (refresh_click s).1.api_key_initialized = s.api_key_initialized ∧
    (refresh_click s).1.news_rx = s.news_rx ∧
    (refresh_click s).1.app_tx = s.app_tx ∧
    (country_click s).1.articles = [] ∧
    (country_click s).2 = [Msg.refresh (toggle_country s.config.country)] ∧
    (country_click s).1.config.country = toggle_country s.config.country ∧
    (country_click s).1.config.dark_mode = s.config.dark_mode ∧
    (country_click s).1.config.api_key = s.config.api_key ∧
    (country_click s).1.api_key_initialized = s.api_key_initialized ∧
    (country_click s).1.news_rx = s.news_rx ∧
    (country_click s).1.app_tx = s.app_tx := by
  obtain ⟨articles, config, k, rx, tx⟩ := s
  simp only at h
  subst h
  simp [refresh_click, country_click]

/-- C9 witness: the click-handler theorem instantiated at a concrete
state whose worker sender exists. -/
theorem C9_witness :
    (refresh_click sample_state).1.articles = [] ∧
    (refresh_click sample_state).2
      = [Msg.refresh sample_state.config.country] ∧
    (refresh_click sample_state).1.config = sample_state.config ∧
    (refresh_click sample_state).1.api_key_initialized
      = sample_state.api_key_initialized ∧
    (refresh_click sample_state).1.news_rx = sample_state.news_rx ∧
    (refresh_click sample_state).1.app_tx = sample_state.app_tx ∧
    (country_click sample_state).1.articles = [] ∧
    (country_click sample_state).2
      = [Msg.refresh (toggle_country sample_state.config.country)] ∧
    (country_click sample_state).1.config.country
      = toggle_country sample_state.config.country ∧
    (country_click sample_state).1.config.dark_mode
      = sample_state.config.dark_mode ∧
    (country_click sample_state).1.config.api_key
      = sample_state.config.api_key ∧
    (country_click sample_state).1.api_key_initialized
      = sample_state.api_key_initialized ∧
    (country_click sample_state).1.news_rx = sample_state.news_rx ∧
    (country_click sample_state).1.app_tx = sample_state.app_tx :=
  C9_click_clears_articles_then_refresh sample_state rfl

/-- C10: the country switch is an involution over the two supported
countries: one click maps US to FR and FR to US, clicking the country
button twice restores the original country for every starting state, and
the default country is FR. -/
theorem C10_country_toggle_involution (s : Headlines) :
    toggle_country Country.us = Country.fr ∧
    toggle_country Country.fr = Country.us ∧
    (∀ c, toggle_country (toggle_country c) = c) ∧
    (country_click (country_click s).1).1.config.country
      = s.config.country ∧
    HeadlinesConfig.default.country = Country.fr := by
  refine ⟨rfl, rfl, fun c => by cases c <;> rfl, ?_, rfl⟩
  rw [country_click_country, country_click_country]
  cases h : s.config.country <;> rfl

end HeadlinesApp
